import Mathlib

/-!
# Verification of the ruma membership / profile core

A shallow embedding of the membership-transition and profile-propagation
core of the ruma homeserver.  Database tables are lists of rows, a
connection is the whole database state, and every fallible operation
returns `Except ApiError`.  A diesel `transaction` rolls back on error;
since our operations return a fresh state only on success, rollback is
inherent: an `error` result exposes no intermediate state.

Code shown in `src/` (`models/profile.rs`, `api/r0/join.rs`,
`api/r0/filter.rs`) is translated directly.  Components of the repository
that are not shown (`RoomMembership`, `PresenceStatus`, `ApiError`,
`Filter` storage) are modelled from the specification and marked as such.
-/

set_option autoImplicit false

deriving instance DecidableEq for Except

namespace Ruma

/-- Opaque Matrix user identifier. -/
abbrev UserId := String

/-- Opaque Matrix room identifier. -/
abbrev RoomId := String

/-- An authenticated user, as attached to a request by `AccessTokenAuth`. -/
structure User where
  id : UserId
deriving Repr, DecidableEq

/-- A Matrix profile row (`src/models/profile.rs`, struct `Profile`). -/
structure Profile where
  id : UserId
  avatar_url : Option String
  displayname : Option String
deriving Repr, DecidableEq

/-- A room-membership row: one current-state row per (room, user). -/
structure RoomMembership where
  room_id : RoomId
  user_id : UserId
  sender : UserId
  membership : String
deriving Repr, DecidableEq

/-- Transient input value object for a membership transition. -/
structure RoomMembershipOptions where
  room_id : RoomId
  user_id : UserId
  sender : UserId
  membership : String
deriving Repr, DecidableEq

/-- Admission-control key of the Duplicate-Transition Guard:
the (room, user, requested-membership) triple. -/
structure Fingerprint where
  room_id : RoomId
  user_id : UserId
  membership : String
deriving Repr, DecidableEq

/-- A stored per-user filter row (per-user opaque filter storage). -/
structure FilterRow where
  id : Nat
  user_id : UserId
  content : String
deriving Repr, DecidableEq

/-- Modelled from the spec: diesel-level storage failures.  `notFound`
is the row-missing result; `databaseError` stands for any
connectivity/constraint failure. -/
inductive DieselError where
  | notFound
  | databaseError
deriving Repr, DecidableEq

/-- Modelled from the spec: the polymorphic error type `ApiError`
(absent from `src/`), a tagged variant with one case per taxonomy entry
of §7, carrying the human message where one exists. -/
inductive ApiError where
  | forbidden (message : String)
  | rateLimited (message : String)
  | unauthorized (message : String)
  | notFound
  | storageError
  | badJson
deriving Repr, DecidableEq

/-- Modelled from the spec: the machine-readable error code surfaced at
the outward boundary. -/
def ApiError.errcode : ApiError → String
  | .forbidden _ => "M_FORBIDDEN"
  | .rateLimited _ => "M_LIMIT_EXCEEDED"
  | .unauthorized _ => "M_FORBIDDEN"
  | .notFound => "M_NOT_FOUND"
  | .storageError => "M_UNKNOWN"
  | .badJson => "M_BAD_JSON"

/-- Modelled from the spec: the HTTP status surfaced at the outward
boundary (Forbidden → access denied, RateLimited → 429 \"try again\"). -/
def ApiError.status : ApiError → Nat
  | .forbidden _ => 403
  | .rateLimited _ => 429
  | .unauthorized _ => 403
  | .notFound => 404
  | .storageError => 500
  | .badJson => 400

/-- Modelled from the spec: `From<DieselError> for ApiError`
(StorageError on connectivity/transaction failure). -/
def ApiError.fromDiesel : DieselError → ApiError
  | .notFound => .notFound
  | .databaseError => .storageError

/-- The whole durable state reachable through one pooled connection:
the `profiles`, `room_memberships`, `presence_status` and `filters`
tables, the Guard's recorded fingerprints, a transition log recording
every membership transition applied by the Engine's store (the
room-visible \"received\" transitions of the spec), the room-policy
oracle's visibility data, and an injectable storage failure. -/
structure DbState where
  profiles : List Profile
  memberships : List RoomMembership
  presence : List UserId
  guard : List Fingerprint
  log : List RoomMembership
  publicRooms : List RoomId
  filters : List FilterRow
  failure : Option DieselError
deriving Repr, DecidableEq

/-- The empty database. -/
def DbState.empty : DbState :=
  { profiles := [], memberships := [], presence := [], guard := [],
    log := [], publicRooms := [], filters := [], failure := none }

/-- Look up the profile row for a user (`profiles::table.find(user_id)`). -/
def DbState.findProfile (db : DbState) (user_id : UserId) : Option Profile :=
  db.profiles.find? (fun p => p.id == user_id)

/-- The current membership row for a (room, user) pair (`store.get`). -/
def DbState.currentMembership (db : DbState) (room_id : RoomId)
    (user_id : UserId) : Option RoomMembership :=
  db.memberships.find? (fun m => m.room_id == room_id && m.user_id == user_id)

/-- Embeds `profiles::table.find(user_id).get_result(connection)`: the raw
diesel query, failing with `NotFound` when the row is absent and with
the injected failure when the connection is broken. -/
def profilesGetResult (db : DbState) (user_id : UserId) :
    Except DieselError Profile :=
  match db.failure with
  | some e => .error e
  | none =>
    match db.findProfile user_id with
    | some p => .ok p
    | none => .error .notFound

/-- Embeds `self.save_changes::<Profile>(connection)`: update the profile row
with this id in place, returning the saved row. -/
def profileSaveChanges (db : DbState) (p : Profile) :
    Except DieselError (Profile × DbState) :=
  match db.failure with
  | some e => .error e
  | none =>
    .ok (p, { db with
      profiles := db.profiles.map (fun q => if q.id == p.id then p else q) })

/-- Embeds `diesel::insert_into(profiles::table).values(new_profile).get_result`. -/
def profileInsert (db : DbState) (p : Profile) :
    Except DieselError (Profile × DbState) :=
  match db.failure with
  | some e => .error e
  | none => .ok (p, { db with profiles := db.profiles ++ [p] })

namespace Profile

/-- Embeds `Profile::find_by_uid` (src/models/profile.rs): `Ok(Some)` when the
row exists, `Ok(None)` on diesel `NotFound`, `Err` on any other error. -/
def find_by_uid (db : DbState) (user_id : UserId) :
    Except ApiError (Option Profile) :=
  match profilesGetResult db user_id with
  | .ok profile => .ok (some profile)
  | .error .notFound => .ok none
  | .error err => .error (ApiError.fromDiesel err)

/-- Embeds `Profile::create` (src/models/profile.rs). -/
def create (db : DbState) (new_profile : Profile) :
    Except ApiError (Profile × DbState) :=
  match profileInsert db new_profile with
  | .ok r => .ok r
  | .error e => .error (ApiError.fromDiesel e)

/-- Embeds `Profile::set_avatar_url` (src/models/profile.rs): mutate the field
on `self`, then `save_changes`, returning the mutated `self`. -/
def set_avatar_url (db : DbState) (self : Profile)
    (avatar_url : Option String) : Except ApiError (Profile × DbState) :=
  let self := { self with avatar_url := avatar_url }
  match profileSaveChanges db self with
  | .ok (_, db) => .ok (self, db)
  | .error error => .error (ApiError.fromDiesel error)

/-- Embeds `Profile::set_displayname` (src/models/profile.rs). -/
def set_displayname (db : DbState) (self : Profile)
    (displayname : Option String) : Except ApiError (Profile × DbState) :=
  let self := { self with displayname := displayname }
  match profileSaveChanges db self with
  | .ok (_, db) => .ok (self, db)
  | .error error => .error (ApiError.fromDiesel error)

end Profile

/-- The presence list after `PresenceStatus::upsert` for a user:
unchanged if the user already has a presence row, otherwise extended. -/
def upsertPresence (presence : List UserId) (user_id : UserId) :
    List UserId :=
  if presence.contains user_id then presence else presence ++ [user_id]

namespace PresenceStatus

/-- Modelled from the spec: `PresenceStatus::upsert` (the module
`models/presence_status.rs` is absent from `src/` and the spec does not
describe it); we model it as creating-or-updating the user's presence
row, failing on a broken connection. -/
def upsert (db : DbState) (_homeserver_domain : String) (user_id : UserId) :
    Except ApiError DbState :=
  match db.failure with
  | some e => .error (ApiError.fromDiesel e)
  | none => .ok { db with presence := upsertPresence db.presence user_id }

end PresenceStatus

/-- Modelled from the spec (§4.2): the pure Transition Validator.
Returns `none` for Allow and `some reason` for Deny.  Rule 1 handles
`join` (public rooms unconditionally; accepting one's own invite;
self re-affirmation of an existing join; otherwise the \"not invited\"
denial).  Other transitions are checked against the ban-self-unban
rule and the injected `sender_may` capability, here already applied to
the action and room. -/
def validate (current : Option String) (requested : String)
    (sender target : UserId) (isPublic : Bool) (senderMay : Bool) :
    Option String :=
  if requested == "join" then
    if isPublic then none
    else if current == some "invite" && sender == target then none
    else if current == some "join" && sender == target then none
    else some "You are not invited to this room."
  else
    if current == some "ban" && sender == target && requested != "leave" then
      some "You cannot unban yourself."
    else if senderMay then none
    else some "You do not have the required power level."

/-- Replace the (at most one) row with this (room, user) key, or append
the row: the store's `upsert` on the membership table. -/
def upsertRow : List RoomMembership → RoomMembership → List RoomMembership
  | [], row => [row]
  | m :: rest, row =>
    if m.room_id == row.room_id && m.user_id == row.user_id then
      row :: rest
    else
      m :: upsertRow rest row

/-- Modelled from the spec (§4.1, §4.3): the transactional store write.
The row is upserted, the applied transition is recorded in the
transition log (the transition the room \"receives\"), and the Guard's
per-(room,user) fingerprints whose membership value differs from the
newly stored value are cleared. -/
def storeUpsert (db : DbState) (row : RoomMembership) : DbState :=
  { db with
    memberships := upsertRow db.memberships row,
    log := db.log ++ [row],
    guard := db.guard.filter (fun fp =>
      !(fp.room_id == row.room_id && fp.user_id == row.user_id &&
        fp.membership != row.membership)) }

/-- The admission-control key of a requested transition. -/
def fingerprintOf (options : RoomMembershipOptions) : Fingerprint :=
  ⟨options.room_id, options.user_id, options.membership⟩

namespace RoomMembership

/-- Modelled from the spec (§4.4): the Engine's public path
`RoomMembership::create` (absent from `src/`).  Steps: load current
state; Guard admission on the fingerprint (deny → `RateLimited` with
the literal retry message); Validator (deny → `Forbidden(reason)`);
transactional upsert recording the fingerprint as just applied; return
the persisted row.  `sender_may` is the room-policy oracle. -/
def create (sender_may : String → RoomId → Bool)
    (_homeserver_domain : String) (db : DbState)
    (options : RoomMembershipOptions) :
    Except ApiError (RoomMembership × DbState) :=
  match db.failure with
  | some e => .error (ApiError.fromDiesel e)
  | none =>
    let fp := fingerprintOf options
    if db.guard.contains fp then
      .error (ApiError.rateLimited "Try to set the membership again!")
    else
      let current := db.currentMembership options.room_id options.user_id
      match validate (current.map (fun m => m.membership)) options.membership
          options.sender options.user_id
          (db.publicRooms.contains options.room_id)
          (sender_may options.membership options.room_id) with
      | some reason => .error (ApiError.forbidden reason)
      | none =>
        let row : RoomMembership :=
          ⟨options.room_id, options.user_id, options.sender,
            options.membership⟩
        let db := storeUpsert db row
        .ok (row, { db with guard := db.guard ++ [fp] })

/-- Modelled from the spec (§4.5): the Engine's privileged path
`RoomMembership::update` (absent from `src/`): same as `create` but the
Guard is bypassed entirely — no admission check and no fingerprint
recording, since the Guard keys on publicly-initiated transitions. -/
def update (sender_may : String → RoomId → Bool)
    (_homeserver_domain : String) (db : DbState) (_self : RoomMembership)
    (options : RoomMembershipOptions) :
    Except ApiError (RoomMembership × DbState) :=
  match db.failure with
  | some e => .error (ApiError.fromDiesel e)
  | none =>
    let current := db.currentMembership options.room_id options.user_id
    match validate (current.map (fun m => m.membership)) options.membership
        options.sender options.user_id
        (db.publicRooms.contains options.room_id)
        (sender_may options.membership options.room_id) with
    | some reason => .error (ApiError.forbidden reason)
    | none =>
      let row : RoomMembership :=
        ⟨options.room_id, options.user_id, options.sender,
          options.membership⟩
      .ok (row, storeUpsert db row)

/-- Modelled from the spec (§4.1): `RoomMembership::find_by_uid`
(absent from `src/`) returns every room the user currently has *any*
membership row in. -/
def find_by_uid (db : DbState) (user_id : UserId) :
    Except ApiError (List RoomMembership) :=
  match db.failure with
  | some e => .error (ApiError.fromDiesel e)
  | none => .ok (db.memberships.filter (fun m => m.user_id == user_id))

end RoomMembership

namespace Profile

/-- The `for room_membership in &mut room_memberships` loop of
`Profile::update_memberships`, with `?`-propagation of errors. -/
def updateMembershipsLoop (sender_may : String → RoomId → Bool)
    (homeserver_domain : String) (user_id : UserId) :
    List RoomMembership → DbState → Except ApiError DbState
  | [], db => .ok db
  | room_membership :: rest, db =>
    let options : RoomMembershipOptions :=
      { room_id := room_membership.room_id,
        user_id := user_id,
        sender := user_id,
        membership := "join" }
    match RoomMembership.update sender_may homeserver_domain db
        room_membership options with
    | .error e => .error e
    | .ok (_, db) =>
      updateMembershipsLoop sender_may homeserver_domain user_id rest db

/-- Embeds `Profile::update_memberships` (src/models/profile.rs): load every
membership row of the user with `RoomMembership::find_by_uid` and
re-issue, for each row, a `join` transition with
`sender = target = user_id` through the Engine's privileged path. -/
def update_memberships (sender_may : String → RoomId → Bool)
    (homeserver_domain : String) (db : DbState) (user_id : UserId) :
    Except ApiError DbState :=
  match RoomMembership.find_by_uid db user_id with
  | .error e => .error e
  | .ok room_memberships =>
    updateMembershipsLoop sender_may homeserver_domain user_id
      room_memberships db

/-- Embeds `Profile::update_avatar_url` (src/models/profile.rs): inside one
transaction, find the profile row; mutate it in place if present,
otherwise create it with `displayname = None`; then upsert the user's
presence status.  Rollback on error is inherent: an `error` result
exposes no state. -/
def update_avatar_url (homeserver_domain : String) (db : DbState)
    (user_id : UserId) (avatar_url : Option String) :
    Except ApiError (Profile × DbState) :=
  match find_by_uid db user_id with
  | .error e => .error e
  | .ok maybe_profile =>
    let step : Except ApiError (Profile × DbState) :=
      match maybe_profile with
      | some profile => set_avatar_url db profile avatar_url
      | none =>
        create db { id := user_id, avatar_url := avatar_url,
                    displayname := none }
    match step with
    | .error e => .error e
    | .ok (profile, db) =>
      match PresenceStatus.upsert db homeserver_domain user_id with
      | .error e => .error e
      | .ok db => .ok (profile, db)

/-- Embeds `Profile::update_displayname` (src/models/profile.rs): the exact
mirror of `update_avatar_url` for the `displayname` field
(`avatar_url = None` on creation). -/
def update_displayname (homeserver_domain : String) (db : DbState)
    (user_id : UserId) (displayname : Option String) :
    Except ApiError (Profile × DbState) :=
  match find_by_uid db user_id with
  | .error e => .error e
  | .ok maybe_profile =>
    let step : Except ApiError (Profile × DbState) :=
      match maybe_profile with
      | some profile => set_displayname db profile displayname
      | none =>
        create db { id := user_id, avatar_url := none,
                    displayname := displayname }
    match step with
    | .error e => .error e
    | .ok (profile, db) =>
      match PresenceStatus.upsert db homeserver_domain user_id with
      | .error e => .error e
      | .ok db => .ok (profile, db)

end Profile

/-- The success body of the `/rooms/:room_id/join` endpoint. -/
structure JoinRoomResponse where
  room_id : String
deriving Repr, DecidableEq

namespace JoinRoom

/-- Embeds `JoinRoom::handle` (src/api/r0/join.rs): build
`RoomMembershipOptions` with `user_id = sender = user.id` and
`membership = \"join\"`, call `RoomMembership::create`, and answer with
the persisted row's `room_id`. -/
def handle (sender_may : String → RoomId → Bool) (domain : String)
    (db : DbState) (user : User) (room_id : RoomId) :
    Except ApiError (JoinRoomResponse × DbState) :=
  let room_membership_options : RoomMembershipOptions :=
    { room_id := room_id,
      user_id := user.id,
      sender := user.id,
      membership := "join" }
  match RoomMembership.create sender_may domain db
      room_membership_options with
  | .error e => .error e
  | .ok (room_membership, db) =>
    .ok ({ room_id := room_membership.room_id }, db)

end JoinRoom

/-- Result of `request.get::<bodyparser::Struct<ContentFilter>>()`:
a parsed filter body (kept opaque as its serialized JSON), an empty
body, or a parse error. -/
inductive FilterBody where
  | parsed (content : String)
  | empty
  | malformed
deriving Repr, DecidableEq

namespace Filter

/-- Modelled from the spec: `Filter::create` of the per-user opaque
filter storage (absent from `src/`): store the content under a fresh
id owned by the given user and return the id. -/
def create (db : DbState) (user_id : UserId) (content : String) :
    Except ApiError (Nat × DbState) :=
  match db.failure with
  | some e => .error (ApiError.fromDiesel e)
  | none =>
    let id := db.filters.length
    .ok (id, { db with filters := db.filters ++ [⟨id, user_id, content⟩] })

end Filter

namespace PostFilter

/-- Embeds `PostFilter::handle` (src/api/r0/filter.rs): reject with an
unauthorized error when the `user_id` path parameter differs from the
authenticated user, then parse the body (bad body → `badJson`), then
create the filter for that user and answer with its id. -/
def handle (db : DbState) (user_id : UserId) (user : User)
    (body : FilterBody) : Except ApiError (String × DbState) :=
  if user_id != user.id then
    .error (ApiError.unauthorized
      "The given user_id does not correspond to the authenticated user")
  else
    match body with
    | .parsed content =>
      match Filter.create db user_id content with
      | .error e => .error e
      | .ok (id, db) => .ok (toString id, db)
    | _ => .error ApiError.badJson

end PostFilter

/-! ## Concrete sample states used by witnesses and counterexamples -/

/-- A room-policy oracle granting no capability (never consulted by the
claims below, which only exercise `join` transitions). -/
def smFalse : String → RoomId → Bool := fun _ _ => false

/-- Sample state: public room `r1` with `u` joined, private room `r2`
with `u` invited by `o`, private room `r3` with `v` joined, and a
profile row for `u`. -/
def sampleDb : DbState :=
  { DbState.empty with
    publicRooms := ["r1"],
    memberships := [⟨"r1", "u", "u", "join"⟩, ⟨"r2", "u", "o", "invite"⟩,
                    ⟨"r3", "v", "v", "join"⟩],
    profiles := [⟨"u", none, some "old"⟩] }

/-- State `sampleDb` with a broken connection. -/
def sampleDbFail : DbState := { sampleDb with failure := some .databaseError }

/-! ## Theorems -/

/-- Claim C9: `Profile::find_by_uid` returns `Ok(None)` rather than an
error when no profile row exists, `Ok(Some(profile))` when the row
exists, and `Err` only on a database failure other than not-found. -/
theorem find_by_uid_absent_is_ok_none (db : DbState) (user_id : UserId) :
    (db.failure = none → db.findProfile user_id = none →
      Profile.find_by_uid db user_id = .ok none) ∧
    (∀ p, db.failure = none → db.findProfile user_id = some p →
      Profile.find_by_uid db user_id = .ok (some p)) ∧
    (db.failure = some .databaseError →
      Profile.find_by_uid db user_id = .error ApiError.storageError) := by
  refine ⟨?_, ?_, ?_⟩ <;> intros <;>
    simp_all [Profile.find_by_uid, profilesGetResult, ApiError.fromDiesel]

/-- Witness for C9: all three cases of `find_by_uid` at concrete
states. -/
theorem find_by_uid_absent_is_ok_none_witness :
    Profile.find_by_uid sampleDb "w" = .ok none ∧
    Profile.find_by_uid sampleDb "u" = .ok (some ⟨"u", none, some "old"⟩) ∧
    Profile.find_by_uid sampleDbFail "u" = .error ApiError.storageError :=
  ⟨(find_by_uid_absent_is_ok_none sampleDb "w").1 (by decide) (by decide),
   ⟨((find_by_uid_absent_is_ok_none sampleDb "u").2.1 ⟨"u", none, some "old"⟩
      (by decide) (by decide)),
    (find_by_uid_absent_is_ok_none sampleDbFail "u").2.2 (by decide)⟩⟩

/-- Full characterization of `update_avatar_url` and
`update_displayname` on a working connection: create with the other
field `None` when the row is absent, mutate in place when it exists,
and upsert the presence row.  Shared helper for the profile claims. -/
theorem update_profile_spec (homeserver_domain : String)
    (db : DbState) (user_id : UserId) (value : Option String)
    (hfail : db.failure = none) :
    (db.findProfile user_id = none →
      Profile.update_avatar_url homeserver_domain db user_id value =
        .ok (⟨user_id, value, none⟩,
          { db with profiles := db.profiles ++ [⟨user_id, value, none⟩],
                    presence := upsertPresence db.presence user_id }) ∧
      Profile.update_displayname homeserver_domain db user_id value =
        .ok (⟨user_id, none, value⟩,
          { db with profiles := db.profiles ++ [⟨user_id, none, value⟩],
                    presence := upsertPresence db.presence user_id })) ∧
    (∀ p, db.findProfile user_id = some p →
      Profile.update_avatar_url homeserver_domain db user_id value =
        .ok ({ p with avatar_url := value },
          { db with
              profiles := db.profiles.map (fun q =>
                if q.id == p.id then { p with avatar_url := value } else q),
              presence := upsertPresence db.presence user_id }) ∧
      Profile.update_displayname homeserver_domain db user_id value =
        .ok ({ p with displayname := value },
          { db with
              profiles := db.profiles.map (fun q =>
                if q.id == p.id then { p with displayname := value } else q),
              presence := upsertPresence db.presence user_id })) := by
  constructor
  · intro hnone
    constructor <;>
      simp [Profile.update_avatar_url, Profile.update_displayname,
        Profile.find_by_uid, profilesGetResult, hfail, hnone,
        Profile.create, profileInsert, PresenceStatus.upsert]
  · intro p hp
    constructor <;>
      simp [Profile.update_avatar_url, Profile.update_displayname,
        Profile.find_by_uid, profilesGetResult, hfail, hp,
        Profile.set_avatar_url, Profile.set_displayname,
        profileSaveChanges, PresenceStatus.upsert]

/-- Claim C6: on a working connection, `update_avatar_url` and
`update_displayname` create the profile row (with the given field set
and the other field `None`) when it is absent, mutate it in place when
it exists, and in both cases return the updated profile. -/
theorem update_profile_creates_or_mutates (homeserver_domain : String)
    (db : DbState) (user_id : UserId) (value : Option String)
    (hfail : db.failure = none) :
    (db.findProfile user_id = none →
      Profile.update_avatar_url homeserver_domain db user_id value =
        .ok (⟨user_id, value, none⟩,
          { db with profiles := db.profiles ++ [⟨user_id, value, none⟩],
                    presence := upsertPresence db.presence user_id }) ∧
      Profile.update_displayname homeserver_domain db user_id value =
        .ok (⟨user_id, none, value⟩,
          { db with profiles := db.profiles ++ [⟨user_id, none, value⟩],
                    presence := upsertPresence db.presence user_id })) ∧
    (∀ p, db.findProfile user_id = some p →
      Profile.update_avatar_url homeserver_domain db user_id value =
        .ok ({ p with avatar_url := value },
          { db with
              profiles := db.profiles.map (fun q =>
                if q.id == p.id then { p with avatar_url := value } else q),
              presence := upsertPresence db.presence user_id }) ∧
      Profile.update_displayname homeserver_domain db user_id value =
        .ok ({ p with displayname := value },
          { db with
              profiles := db.profiles.map (fun q =>
                if q.id == p.id then { p with displayname := value } else q),
              presence := upsertPresence db.presence user_id })) :=
  update_profile_spec homeserver_domain db user_id value hfail

/-- Witness for C6: creation at an absent row and in-place mutation at
an existing row. -/
theorem update_profile_creates_or_mutates_witness :
    Profile.update_avatar_url "example.com" DbState.empty "u" (some "mxc") =
      .ok (⟨"u", some "mxc", none⟩,
        { DbState.empty with
            profiles := DbState.empty.profiles ++ [⟨"u", some "mxc", none⟩],
            presence := upsertPresence DbState.empty.presence "u" }) ∧
    Profile.update_displayname "example.com" sampleDb "u" (some "Alice") =
      .ok ({ Profile.mk "u" none (some "old") with displayname := some "Alice" },
        { sampleDb with
            profiles := sampleDb.profiles.map (fun q =>
              if q.id == "u" then
                { Profile.mk "u" none (some "old") with
                    displayname := some "Alice" }
              else q),
            presence := upsertPresence sampleDb.presence "u" }) :=
  ⟨((update_profile_creates_or_mutates "example.com" DbState.empty "u"
      (some "mxc") (by decide)).1 (by decide)).1,
   ((update_profile_creates_or_mutates "example.com" sampleDb "u"
      (some "Alice") (by decide)).2 ⟨"u", none, some "old"⟩ (by decide)).2⟩

/-- Claim C7: on an existing profile row, `update_avatar_url` changes
only the `avatar_url` field (preserving `displayname`) and
`update_displayname` changes only the `displayname` field (preserving
`avatar_url`); in the stored table only the row with this id changes;
the new value is an arbitrary `Option String`, including `none`. -/
theorem update_profile_field_independence (homeserver_domain : String)
    (db : DbState) (user_id : UserId) (value : Option String) (p : Profile)
    (hfail : db.failure = none) (hp : db.findProfile user_id = some p) :
    (Profile.update_avatar_url homeserver_domain db user_id value).toOption.map
        (fun x => x.1) = some ⟨p.id, value, p.displayname⟩ ∧
    (Profile.update_displayname homeserver_domain db user_id value).toOption.map
        (fun x => x.1) = some ⟨p.id, p.avatar_url, value⟩ ∧
    (Profile.update_avatar_url homeserver_domain db user_id value).toOption.map
        (fun x => x.2.profiles) =
      some (db.profiles.map (fun q =>
        if q.id == p.id then ⟨p.id, value, p.displayname⟩ else q)) ∧
    (Profile.update_displayname homeserver_domain db user_id value).toOption.map
        (fun x => x.2.profiles) =
      some (db.profiles.map (fun q =>
        if q.id == p.id then ⟨p.id, p.avatar_url, value⟩ else q)) := by
  have h := (update_profile_spec homeserver_domain db user_id
    value hfail).2 p hp
  rw [h.1, h.2]
  exact ⟨rfl, rfl, rfl, rfl⟩

/-- Witness for C7: clearing `avatar_url` (setting it to `none`) on
`u`'s row preserves the stored `displayname`. -/
theorem update_profile_field_independence_witness :
    (Profile.update_avatar_url "example.com" sampleDb "u" none).toOption.map
        (fun x => x.1) = some ⟨"u", none, some "old"⟩ :=
  (update_profile_field_independence "example.com" sampleDb "u" none
    ⟨"u", none, some "old"⟩ (by decide) (by decide)).1

/-- Claim C8: every successful `update_avatar_url` or
`update_displayname` call additionally upserts the user's presence row
in the same transaction: the returned (atomically committed) state
carries the presence upsert alongside the profile change. -/
theorem update_profile_upserts_presence (homeserver_domain : String)
    (db : DbState) (user_id : UserId) (value : Option String) :
    (∀ r db', Profile.update_avatar_url homeserver_domain db user_id value =
        .ok (r, db') → db'.presence = upsertPresence db.presence user_id) ∧
    (∀ r db', Profile.update_displayname homeserver_domain db user_id value =
        .ok (r, db') → db'.presence = upsertPresence db.presence user_id) := by
  cases hfail : db.failure with
  | some e =>
    cases e <;> constructor <;> intro r db' h <;>
      cases hp : db.findProfile user_id <;>
      simp_all [Profile.update_avatar_url, Profile.update_displayname,
        Profile.find_by_uid, profilesGetResult, Profile.create, profileInsert,
        Profile.set_avatar_url, Profile.set_displayname, profileSaveChanges,
        ApiError.fromDiesel]
  | none =>
    cases hp : db.findProfile user_id with
    | none =>
      have h := (update_profile_spec homeserver_domain db
        user_id value hfail).1 hp
      constructor <;> intro r db' heq
      · rw [h.1] at heq
        cases heq
        rfl
      · rw [h.2] at heq
        cases heq
        rfl
    | some p =>
      have h := (update_profile_spec homeserver_domain db
        user_id value hfail).2 p hp
      constructor <;> intro r db' heq
      · rw [h.1] at heq
        cases heq
        rfl
      · rw [h.2] at heq
        cases heq
        rfl

/-- Witness for C8: the committed state of a concrete displayname
update contains the presence row for `u`. -/
theorem update_profile_upserts_presence_witness :
    ({ sampleDb with
        profiles := sampleDb.profiles.map (fun q =>
          if q.id == "u" then
            { Profile.mk "u" none (some "old") with
                displayname := some "Alice" }
          else q),
        presence := upsertPresence sampleDb.presence "u" } : DbState).presence =
      upsertPresence sampleDb.presence "u" :=
  (update_profile_upserts_presence "example.com" sampleDb "u"
    (some "Alice")).2
    { Profile.mk "u" none (some "old") with displayname := some "Alice" }
    { sampleDb with
        profiles := sampleDb.profiles.map (fun q =>
          if q.id == "u" then
            { Profile.mk "u" none (some "old") with
                displayname := some "Alice" }
          else q),
        presence := upsertPresence sampleDb.presence "u" }
    (by decide)

/-- The upserted row is the row the store's lookup finds afterwards. -/
theorem find?_upsertRow (l : List RoomMembership) (row : RoomMembership) :
    (upsertRow l row).find? (fun m =>
      m.room_id == row.room_id && m.user_id == row.user_id) = some row := by
  induction l with
  | nil => simp [upsertRow]
  | cons m rest ih =>
    by_cases hm : (m.room_id == row.room_id && m.user_id == row.user_id) = true
    · simp [upsertRow, hm]
    · rw [Bool.not_eq_true] at hm
      simp [upsertRow, hm, ih]

/-- Anatomy of a successful public-path transition: the connection was
working, the returned row is built from the options, and the final
state is the transactional upsert plus the recorded fingerprint. -/
theorem create_ok_spec (sender_may : String → RoomId → Bool) (dom : String)
    (db : DbState) (opts : RoomMembershipOptions) (rm : RoomMembership)
    (db' : DbState)
    (h : RoomMembership.create sender_may dom db opts = .ok (rm, db')) :
    db.failure = none ∧
    rm = ⟨opts.room_id, opts.user_id, opts.sender, opts.membership⟩ ∧
    db' = { storeUpsert db rm with
            guard := (storeUpsert db rm).guard ++ [fingerprintOf opts] } := by
  simp only [RoomMembership.create] at h
  split at h
  · simp at h
  next hf =>
    split at h
    · simp at h
    · split at h
      · simp at h
      · simp only [Except.ok.injEq, Prod.mk.injEq] at h
        obtain ⟨h1, h2⟩ := h
        subst h1
        subst h2
        exact ⟨hf, rfl, rfl⟩

/-- Anatomy of a successful privileged-path transition: as for the
public path, but the Guard is untouched — no admission check and no
fingerprint recording. -/
theorem update_ok_spec (sender_may : String → RoomId → Bool) (dom : String)
    (db : DbState) (self : RoomMembership) (opts : RoomMembershipOptions)
    (rm : RoomMembership) (db' : DbState)
    (h : RoomMembership.update sender_may dom db self opts = .ok (rm, db')) :
    db.failure = none ∧
    rm = ⟨opts.room_id, opts.user_id, opts.sender, opts.membership⟩ ∧
    db' = storeUpsert db rm := by
  simp only [RoomMembership.update] at h
  split at h
  · simp at h
  next hf =>
    split at h
    · simp at h
    · simp only [Except.ok.injEq, Prod.mk.injEq] at h
      obtain ⟨h1, h2⟩ := h
      subst h1
      subst h2
      exact ⟨hf, rfl, rfl⟩

/-- Claim C5: a successful `JoinRoom` request went through
`RoomMembership::create` with `sender = target = user.id` and
`membership = join`, and the response body carries exactly the
`room_id` of the membership row that was persisted. -/
theorem join_room_self_join_and_response (sender_may : String → RoomId → Bool)
    (domain : String) (db : DbState) (user : User) (room_id : RoomId)
    (resp : JoinRoomResponse) (db' : DbState)
    (h : JoinRoom.handle sender_may domain db user room_id =
      .ok (resp, db')) :
    ∃ rm, RoomMembership.create sender_may domain db
        { room_id := room_id, user_id := user.id, sender := user.id,
          membership := "join" } = .ok (rm, db') ∧
      rm.sender = user.id ∧ rm.user_id = user.id ∧ rm.membership = "join" ∧
      resp = ⟨rm.room_id⟩ ∧
      db'.currentMembership room_id user.id = some rm := by
  simp only [JoinRoom.handle] at h
  cases hc : RoomMembership.create sender_may domain db
      { room_id := room_id, user_id := user.id, sender := user.id,
        membership := "join" } with
  | error e => rw [hc] at h; simp at h
  | ok pair =>
    rw [hc] at h
    obtain ⟨rm, db2⟩ := pair
    simp only [Except.ok.injEq, Prod.mk.injEq] at h
    obtain ⟨hresp, hdb⟩ := h
    subst hdb
    obtain ⟨-, hrm, hdb2⟩ := create_ok_spec _ _ _ _ _ _ hc
    refine ⟨rm, rfl, ?_, ?_, ?_, ?_, ?_⟩
    · rw [hrm]
    · rw [hrm]
    · rw [hrm]
    · exact hresp.symm
    · subst hdb2
      show (upsertRow db.memberships rm).find? _ = some rm
      have := find?_upsertRow db.memberships rm
      rw [hrm] at this ⊢
      exact this

/-- Witness input for the join claims: `sampleDb` after `w`
successfully joined the public room `r1` once. -/
def joinedOnceDb : DbState :=
  { sampleDb with
    memberships := sampleDb.memberships ++ [⟨"r1", "w", "w", "join"⟩],
    guard := [⟨"r1", "w", "join"⟩],
    log := [⟨"r1", "w", "w", "join"⟩] }

/-- Witness for C5: the concrete first join of `w` into `r1`. -/
theorem join_room_self_join_and_response_witness :
    ∃ rm, RoomMembership.create smFalse "example.com" sampleDb
        { room_id := "r1", user_id := "w", sender := "w",
          membership := "join" } = .ok (rm, joinedOnceDb) ∧
      rm.sender = "w" ∧ rm.user_id = "w" ∧ rm.membership = "join" ∧
      (⟨"r1"⟩ : JoinRoomResponse) = ⟨rm.room_id⟩ ∧
      joinedOnceDb.currentMembership "r1" "w" = some rm :=
  join_room_self_join_and_response smFalse "example.com" sampleDb ⟨"w"⟩
    "r1" ⟨"r1"⟩ joinedOnceDb (by decide)

/-- Claim C3: after any successful publicly-initiated join, the
identical join request re-issued with no intervening transition is
denied with the rate-limit error: message
\"Try to set the membership again!\", machine code `M_LIMIT_EXCEEDED`,
HTTP 429. -/
theorem duplicate_public_join_rate_limited (sender_may : String → RoomId → Bool)
    (domain : String) (db : DbState) (user : User) (room_id : RoomId)
    (resp : JoinRoomResponse) (db' : DbState)
    (h : JoinRoom.handle sender_may domain db user room_id =
      .ok (resp, db')) :
    JoinRoom.handle sender_may domain db' user room_id =
      .error (ApiError.rateLimited "Try to set the membership again!") ∧
    ApiError.errcode
      (ApiError.rateLimited "Try to set the membership again!") =
      "M_LIMIT_EXCEEDED" ∧
    ApiError.status
      (ApiError.rateLimited "Try to set the membership again!") = 429 := by
  refine ⟨?_, rfl, rfl⟩
  simp only [JoinRoom.handle] at h ⊢
  cases hc : RoomMembership.create sender_may domain db
      { room_id := room_id, user_id := user.id, sender := user.id,
        membership := "join" } with
  | error e => rw [hc] at h; simp at h
  | ok pair =>
    rw [hc] at h
    obtain ⟨rm, db2⟩ := pair
    simp only [Except.ok.injEq, Prod.mk.injEq] at h
    obtain ⟨-, hdb⟩ := h
    subst hdb
    obtain ⟨hf, -, hdb2⟩ := create_ok_spec _ _ _ _ _ _ hc
    subst hdb2
    simp [RoomMembership.create, storeUpsert, hf, fingerprintOf]

/-- Witness for C3: the second identical join of `w` into `r1`. -/
theorem duplicate_public_join_rate_limited_witness :
    JoinRoom.handle smFalse "example.com" joinedOnceDb ⟨"w"⟩ "r1" =
      .error (ApiError.rateLimited "Try to set the membership again!") ∧
    ApiError.errcode
      (ApiError.rateLimited "Try to set the membership again!") =
      "M_LIMIT_EXCEEDED" ∧
    ApiError.status
      (ApiError.rateLimited "Try to set the membership again!") = 429 :=
  duplicate_public_join_rate_limited smFalse "example.com" sampleDb ⟨"w"⟩
    "r1" ⟨"r1"⟩ joinedOnceDb (by decide)

/-- A private room in which `u` is already a `join` member (and holds
no invite). -/
def privDb : DbState :=
  { DbState.empty with memberships := [⟨"p", "u", "u", "join"⟩] }

/-- Counterexample to claim C4 as stated: `u` has no `invite`
membership in the private room `p`, yet the join request does not fail
— the Validator's self-re-affirmation branch admits a join request from
a user who is already joined. -/
theorem private_join_already_joined_succeeds :
    privDb.publicRooms.contains "p" = false ∧
    (privDb.currentMembership "p" "u").map (fun m => m.membership) ≠
      some "invite" ∧
    (JoinRoom.handle smFalse "example.com" privDb ⟨"u"⟩ "p").toOption.map
      (fun x => x.1) = some ⟨"p"⟩ := by decide

/-- Claim C4 (amended): a join request for a private room by a user
with no current `invite` membership *and no current `join` membership*
fails with message \"You are not invited to this room.\", machine code
`M_FORBIDDEN`, HTTP 403; no membership row is written (an error result
commits no state). -/
theorem private_join_without_invite_forbidden
    (sender_may : String → RoomId → Bool) (domain : String) (db : DbState)
    (user : User) (room_id : RoomId)
    (hfail : db.failure = none)
    (hpriv : db.publicRooms.contains room_id = false)
    (hguard : db.guard.contains ⟨room_id, user.id, "join"⟩ = false)
    (hinv : (db.currentMembership room_id user.id).map
      (fun m => m.membership) ≠ some "invite")
    (hjoin : (db.currentMembership room_id user.id).map
      (fun m => m.membership) ≠ some "join") :
    JoinRoom.handle sender_may domain db user room_id =
      .error (ApiError.forbidden "You are not invited to this room.") ∧
    ApiError.errcode
      (ApiError.forbidden "You are not invited to this room.") =
      "M_FORBIDDEN" ∧
    ApiError.status
      (ApiError.forbidden "You are not invited to this room.") = 403 := by
  refine ⟨?_, rfl, rfl⟩
  have hpriv' : room_id ∉ db.publicRooms := by simpa using hpriv
  have hguard' : (⟨room_id, user.id, "join"⟩ : Fingerprint) ∉ db.guard := by
    simpa using hguard
  have hv : validate ((db.currentMembership room_id user.id).map
      (fun m => m.membership)) "join" user.id user.id
      (db.publicRooms.contains room_id) (sender_may "join" room_id) =
      some "You are not invited to this room." := by
    cases hc : (db.currentMembership room_id user.id).map
        (fun m => m.membership) with
    | none => simp [validate, hpriv']
    | some s =>
      rw [hc] at hinv hjoin
      simp only [ne_eq, Option.some.injEq] at hinv hjoin
      simp [validate, hpriv', hinv, hjoin]
  have hcreate : RoomMembership.create sender_may domain db
      { room_id := room_id, user_id := user.id, sender := user.id,
        membership := "join" } =
      .error (ApiError.forbidden "You are not invited to this room.") := by
    simp only [RoomMembership.create, hfail, fingerprintOf]
    rw [hguard]
    simp only [Bool.false_eq_true, if_false]
    rw [hv]
  simp [JoinRoom.handle, hcreate]

/-- Witness for the amended C4: `w` holds no membership at all in the
private room `r2` of `sampleDb`, and the join is denied. -/
theorem private_join_without_invite_forbidden_witness :
    JoinRoom.handle smFalse "example.com" sampleDb ⟨"w"⟩ "r2" =
      .error (ApiError.forbidden "You are not invited to this room.") ∧
    ApiError.errcode
      (ApiError.forbidden "You are not invited to this room.") =
      "M_FORBIDDEN" ∧
    ApiError.status
      (ApiError.forbidden "You are not invited to this room.") = 403 :=
  private_join_without_invite_forbidden smFalse "example.com" sampleDb
    ⟨"w"⟩ "r2" (by decide) (by decide) (by decide) (by decide) (by decide)

/-- Each successful iteration of the fan-out loop appends exactly the
re-issued transition of its row to the transition log. -/
theorem updateMembershipsLoop_log (sender_may : String → RoomId → Bool)
    (domain : String) (user_id : UserId) :
    ∀ (rms : List RoomMembership) (db db' : DbState),
      Profile.updateMembershipsLoop sender_may domain user_id rms db =
        .ok db' →
      db'.log = db.log ++
        rms.map (fun m => ⟨m.room_id, user_id, user_id, "join"⟩) := by
  intro rms
  induction rms with
  | nil =>
    intro db db' h
    simp only [Profile.updateMembershipsLoop, Except.ok.injEq] at h
    subst h
    simp
  | cons m rest ih =>
    intro db db' h
    simp only [Profile.updateMembershipsLoop] at h
    cases hu : RoomMembership.update sender_may domain db m
        { room_id := m.room_id, user_id := user_id, sender := user_id,
          membership := "join" } with
    | error e => rw [hu] at h; simp at h
    | ok pair =>
      rw [hu] at h
      obtain ⟨rm, db2⟩ := pair
      obtain ⟨-, hrm, hdb2⟩ := update_ok_spec _ _ _ _ _ _ _ hu
      have hlog := ih db2 db' h
      rw [hlog, hdb2, hrm]
      simp [storeUpsert]

/-- Claim C1 (amended): `Profile::update_memberships` re-issues a
`join` transition with `sender = target = user_id` into every room in
which the user currently has *any* membership row — exactly the rows
returned by `find_by_uid`, in order — not only the rooms with a
current `join` row. -/
theorem update_memberships_fans_out_every_membership_row
    (sender_may : String → RoomId → Bool) (domain : String) (db : DbState)
    (user_id : UserId) (db' : DbState)
    (h : Profile.update_memberships sender_may domain db user_id =
      .ok db') :
    db'.log = db.log ++
      (db.memberships.filter (fun m => m.user_id == user_id)).map
        (fun m => ⟨m.room_id, user_id, user_id, "join"⟩) := by
  simp only [Profile.update_memberships, RoomMembership.find_by_uid] at h
  cases hf : db.failure with
  | some e => rw [hf] at h; simp at h
  | none =>
    rw [hf] at h
    exact updateMembershipsLoop_log sender_may domain user_id _ db db' h

/-- Counterexample to claim C1 as stated: in `sampleDb` the user `u`
has a current `join` row only in `r1`, yet running
`update_memberships` also re-issues the join transition into `r2`
(where `u` is merely invited) and even turns that stored `invite` row
into a `join` row — the caller does not restrict the rows returned by
`find_by_uid` to `join` rows. -/
theorem update_memberships_touches_invited_room :
    (sampleDb.memberships.filter (fun m =>
        m.user_id == "u" && m.membership == "join")).map
      (fun m => m.room_id) = ["r1"] ∧
    (Profile.update_memberships smFalse "example.com" sampleDb
        "u").toOption.map
      (fun db => db.log.contains ⟨"r2", "u", "u", "join"⟩) = some true ∧
    (Profile.update_memberships smFalse "example.com" sampleDb
        "u").toOption.map
      (fun db => (db.currentMembership "r2" "u").map
        (fun m => m.membership)) = some (some "join") := by decide

/-- State `sampleDb` after the fan-out of `u`'s profile change. -/
def fannedDb : DbState :=
  { sampleDb with
    memberships := [⟨"r1", "u", "u", "join"⟩, ⟨"r2", "u", "u", "join"⟩,
                    ⟨"r3", "v", "v", "join"⟩],
    log := [⟨"r1", "u", "u", "join"⟩, ⟨"r2", "u", "u", "join"⟩] }

/-- Witness for the amended C1: the concrete fan-out of `u` in
`sampleDb` logs a re-issued self-join for each of `u`'s two membership
rows. -/
theorem update_memberships_fans_out_every_membership_row_witness :
    fannedDb.log = sampleDb.log ++
      (sampleDb.memberships.filter (fun m => m.user_id == "u")).map
        (fun m => ⟨m.room_id, "u", "u", "join"⟩) :=
  update_memberships_fans_out_every_membership_row smFalse "example.com"
    sampleDb "u" fannedDb (by decide)

/-- Counterexample to claim C2 as stated: `u` is a current `join`
member of `r1`, yet a successful `update_displayname` leaves the
transition log empty and the membership table untouched — no per-room
`join` re-assertion fan-out happens inside these calls at all. -/
theorem profile_update_issues_no_room_transition :
    (sampleDb.currentMembership "r1" "u").map (fun m => m.membership) =
      some "join" ∧
    (Profile.update_displayname "example.com" sampleDb "u"
        (some "Alice")).toOption.map (fun x => x.2.log) = some [] ∧
    (Profile.update_displayname "example.com" sampleDb "u"
        (some "Alice")).toOption.map (fun x => x.2.memberships) =
      some sampleDb.memberships := by decide

/-- Claim C2 (amended): `update_avatar_url` and `update_displayname`
run the profile create-or-mutate and a presence upsert inside one
transaction (an error commits nothing, so the stored profile cannot
durably diverge from what the call reports), but they perform no
per-room fan-out: memberships, transition log and guard state are
untouched; room-visible profile data is refreshed only by the separate
`update_memberships` operation. -/
theorem profile_update_transaction_no_fanout (homeserver_domain : String)
    (db : DbState) (user_id : UserId) (value : Option String) :
    (∀ r db', Profile.update_avatar_url homeserver_domain db user_id value =
        .ok (r, db') →
      db'.memberships = db.memberships ∧ db'.log = db.log ∧
      db'.guard = db.guard ∧
      db'.presence = upsertPresence db.presence user_id) ∧
    (∀ r db', Profile.update_displayname homeserver_domain db user_id value =
        .ok (r, db') →
      db'.memberships = db.memberships ∧ db'.log = db.log ∧
      db'.guard = db.guard ∧
      db'.presence = upsertPresence db.presence user_id) := by
  cases hfail : db.failure with
  | some e =>
    cases e <;> constructor <;> intro r db' h <;>
      cases hp : db.findProfile user_id <;>
      simp_all [Profile.update_avatar_url, Profile.update_displayname,
        Profile.find_by_uid, profilesGetResult, Profile.create, profileInsert,
        Profile.set_avatar_url, Profile.set_displayname, profileSaveChanges,
        ApiError.fromDiesel]
  | none =>
    cases hp : db.findProfile user_id with
    | none =>
      have h := (update_profile_spec homeserver_domain db
        user_id value hfail).1 hp
      constructor <;> intro r db' heq
      · rw [h.1] at heq
        cases heq
        exact ⟨rfl, rfl, rfl, rfl⟩
      · rw [h.2] at heq
        cases heq
        exact ⟨rfl, rfl, rfl, rfl⟩
    | some p =>
      have h := (update_profile_spec homeserver_domain db
        user_id value hfail).2 p hp
      constructor <;> intro r db' heq
      · rw [h.1] at heq
        cases heq
        exact ⟨rfl, rfl, rfl, rfl⟩
      · rw [h.2] at heq
        cases heq
        exact ⟨rfl, rfl, rfl, rfl⟩

/-- State `sampleDb` after `u`'s displayname was set to `Alice`. -/
def renamedDb : DbState :=
  { sampleDb with
    profiles := [⟨"u", none, some "Alice"⟩],
    presence := ["u"] }

/-- Witness for the amended C2: the concrete displayname update of `u`
changes the profile row and presence but no membership state. -/
theorem profile_update_transaction_no_fanout_witness :
    renamedDb.memberships = sampleDb.memberships ∧
    renamedDb.log = sampleDb.log ∧
    renamedDb.guard = sampleDb.guard ∧
    renamedDb.presence = upsertPresence sampleDb.presence "u" :=
  (profile_update_transaction_no_fanout "example.com" sampleDb "u"
    (some "Alice")).2 ⟨"u", none, some "Alice"⟩ renamedDb (by decide)

/-- Claim C10: `PostFilter` rejects a request whose `user_id` path
parameter differs from the authenticated user before creating
anything, and any filter it does create is owned by the authenticated
user. -/
theorem post_filter_requires_self (db : DbState) (user_id : UserId)
    (user : User) (body : FilterBody) :
    (user_id ≠ user.id →
      PostFilter.handle db user_id user body =
        .error (ApiError.unauthorized
          "The given user_id does not correspond to the authenticated user")) ∧
    (∀ resp db', PostFilter.handle db user_id user body = .ok (resp, db') →
      user_id = user.id ∧
      db'.filters.map (fun f => f.user_id) =
        db.filters.map (fun f => f.user_id) ++ [user.id]) := by
  constructor
  · intro hne
    have hb : (user_id != user.id) = true := bne_iff_ne.mpr hne
    simp [PostFilter.handle, hb]
  · intro resp db' h
    simp only [PostFilter.handle] at h
    by_cases he : user_id = user.id
    · have hb : (user_id != user.id) = false := by simp [he]
      rw [hb] at h
      simp only [Bool.false_eq_true, if_false] at h
      cases body with
      | parsed content =>
        simp only [Filter.create] at h
        cases hf : db.failure with
        | some e => rw [hf] at h; simp at h
        | none =>
          rw [hf] at h
          simp only [Except.ok.injEq, Prod.mk.injEq] at h
          obtain ⟨-, hdb⟩ := h
          subst hdb
          exact ⟨he, by simp [he]⟩
      | empty => simp at h
      | malformed => simp at h
    · have hb : (user_id != user.id) = true := bne_iff_ne.mpr he
      rw [hb] at h
      simp at h

/-- State `sampleDb` after `u` stored one filter. -/
def filterDb : DbState := { sampleDb with filters := [⟨0, "u", "f"⟩] }

/-- Witness for C10: a mismatched path user is rejected, and a matched
one stores a filter owned by the authenticated user. -/
theorem post_filter_requires_self_witness :
    PostFilter.handle sampleDb "u" ⟨"v"⟩ (.parsed "f") =
      .error (ApiError.unauthorized
        "The given user_id does not correspond to the authenticated user") ∧
    ("u" = "u" ∧
      filterDb.filters.map (fun f => f.user_id) =
        sampleDb.filters.map (fun f => f.user_id) ++ ["u"]) :=
  ⟨(post_filter_requires_self sampleDb "u" ⟨"v"⟩ (.parsed "f")).1
      (by decide),
   (post_filter_requires_self sampleDb "u" ⟨"u"⟩ (.parsed "f")).2 "0"
      filterDb (by decide)⟩

end Ruma
